import Mathlib

/-!
# Verification of the Fractional Quest career-coach agent core

Shallow embedding, in Lean 4, of the job-matching and session-state core of
the `fractional.quest` agent (files `agent/models.py`, `agent/career_agent.py`
and `agent/db.py`).

Modelling conventions:
* Pydantic models become Lean structures; pydantic field defaults become
  structure-field defaults.  Pydantic does not validate plain attribute
  assignment (no `validate_assignment` config is set anywhere in the code),
  so assignments made by the tools are embedded as raw record updates.
* Python `str` is Lean `String`; `str.lower` is `pyLower` (per-character
  lowercasing, as CPython does for ASCII); the Python substring test
  `needle in hay` is `pyIn`.
* Python floats are modelled as rationals (`Rat`); the score arithmetic of
  `calculate_match_score` only involves decimal literals.
* Each agent tool, which in Python mutates `ctx.deps.state` in place and
  may raise, is a function `CareerCoachState → args → CareerCoachState × r`
  (or `… × Except PyErr r`): the returned state carries every mutation the
  Python body performed before returning or raising.
* The database call inside `search_jobs` is external I/O; its outcome is an
  explicit `DbOutcome` parameter (connection failure / query failure /
  a returned row list), mirroring the `try/except/finally` control flow of
  `db.search_jobs_db`.
* Database rows are embedded as records with the seven fields that
  `career_agent.search_jobs` actually consumes (`id`, `title`, `company`,
  `location`, `remote`, `salary`, `url`); the string-typed columns consumed
  without a None-guard by the scoring code are embedded as `String`.
-/

/-- Errors a tool body can raise to the orchestrator (Python exceptions). -/
inductive PyErr where
  | valueError : PyErr
  | unboundLocalError : PyErr
deriving DecidableEq, Repr

/-- Embedding of CPython `str.lower` (per-character lowercase). -/
def pyLower (s : String) : String := String.mk (s.data.map Char.toLower)

/-- Helper for `pyIn`: does `needle` occur as a contiguous sublist? -/
def pyInAux (needle : List Char) : List Char → Bool
  | [] => needle.isPrefixOf ([] : List Char)
  | c :: t => needle.isPrefixOf (c :: t) || pyInAux needle t

/-- Embedding of the Python substring test `needle in hay`. -/
def pyIn (needle hay : String) : Bool := pyInAux needle.data hay.data

/-- Python truthiness of an optional string argument (`if x:`). -/
def pyTruthyStr : Option String → Bool
  | none => false
  | some s => !(s == "")

/-- Python truthiness of an optional list-of-strings argument (`if x:`). -/
def pyTruthyList : Option (List String) → Bool
  | none => false
  | some l => !l.isEmpty

/-- Python truthiness of an optional integer argument (`if x:`). -/
def pyTruthyInt : Option Int → Bool
  | none => false
  | some n => !(n == 0)

/-- `models.SkillLevel`: closed enumeration of proficiency levels. -/
inductive SkillLevel where
  | beginner : SkillLevel
  | intermediate : SkillLevel
  | advanced : SkillLevel
  | expert : SkillLevel
deriving DecidableEq, Repr

/-- Embedding of the enum constructor call `SkillLevel(level)`:
`some` on the four member values, `none` when Python raises `ValueError`. -/
def SkillLevel.ofString (s : String) : Option SkillLevel :=
  if s == "beginner" then some SkillLevel.beginner
  else if s == "intermediate" then some SkillLevel.intermediate
  else if s == "advanced" then some SkillLevel.advanced
  else if s == "expert" then some SkillLevel.expert
  else none

/-- `models.Skill`. -/
structure Skill where
  name : String
  category : String
  level : SkillLevel := SkillLevel.intermediate
  years_experience : Option Int := none
deriving DecidableEq, Repr

/-- `models.WorkExperience`. -/
structure WorkExperience where
  company : String
  role : String
  is_executive : Bool := false
  start_year : Int
  end_year : Option Int := none
  key_achievements : List String := []
deriving DecidableEq, Repr

/-- `models.JobPreferences`. -/
structure JobPreferences where
  target_roles : List String := []
  locations : List String := []
  remote_preference : Option String := none
  day_rate_min : Option Int := none
  day_rate_max : Option Int := none
  industries : List String := []
  availability_days_per_week : Option Int := none
deriving DecidableEq, Repr

/-- `models.UserProfile`. -/
structure UserProfile where
  user_id : String := "anonymous"
  name : Option String := none
  email : Option String := none
  skills : List Skill := []
  experiences : List WorkExperience := []
  preferences : Option JobPreferences := none
  onboarding_complete : Bool := false
  onboarding_step : Int := 0
deriving DecidableEq, Repr

/-- `models.JobMatch` (match_score as a rational). -/
structure JobMatch where
  job_id : String
  title : String
  company : String
  location : Option String := none
  remote : Bool := false
  match_score : Rat
  match_reasons : List String := []
  missing_skills : List String := []
  day_rate : Option String := none
  url : Option String := none
deriving DecidableEq, Repr

/-- The entries `search_jobs` appends to `state.tool_logs` (Python dicts
with keys tool/status/params, later gaining `results_count`). -/
structure ToolLogEntry where
  tool : String
  status : String
  params_role : Option String
  params_location : Option String
  params_remote_only : Bool
  results_count : Option Nat := none
deriving DecidableEq, Repr

/-- `models.CareerCoachState`: the session aggregate root. -/
structure CareerCoachState where
  user_profile : UserProfile := {}
  job_matches : List JobMatch := []
  onboarding_step : Int := 0
  onboarding_complete : Bool := false
  show_jobs_panel : Bool := false
  show_profile_panel : Bool := false
  show_skills_graph : Bool := false
  last_search_query : Option String := none
  last_search_role : Option String := none
  last_search_location : Option String := none
  tool_logs : List ToolLogEntry := []
deriving DecidableEq, Repr

/-- A row returned by the job store, restricted to the seven columns the
`search_jobs` tool consumes (`id, title, company, location, remote
(is_remote), salary (compensation), url`). -/
structure JobRecord where
  id : Int
  title : String
  company : String
  location : String
  remote : Bool := false
  salary : Option String := none
  url : Option String := none
deriving DecidableEq, Repr

/-- Outcome of a call into the backing store from `db.search_jobs_db`:
the connection attempt raises, a later query/fetch step raises, or a row
list is returned. -/
inductive DbOutcome where
  | connFailure : DbOutcome
  | queryFailure : DbOutcome
  | ok : List JobRecord → DbOutcome
deriving DecidableEq, Repr

/-- Embedding of `db.search_jobs_db`'s `try/except/finally` control flow.
The `try` body either returns the fetched rows or raises; `except
Exception` catches any raise and makes `return []` pending; the `finally`
block then runs `if conn: await conn.close()` — when the connection
attempt itself raised, the local `conn` was never bound, so the `finally`
block raises `UnboundLocalError`, replacing the pending return. -/
def search_jobs_db (o : DbOutcome) : Except PyErr (List JobRecord) :=
  let pending : Except PyErr (List JobRecord) :=
    match o with
    | DbOutcome.connFailure => Except.ok []
    | DbOutcome.queryFailure => Except.ok []
    | DbOutcome.ok rows => Except.ok rows
  let conn_bound : Bool :=
    match o with
    | DbOutcome.connFailure => false
    | _ => true
  if conn_bound then pending else Except.error PyErr.unboundLocalError

/-- `career_agent.calculate_match_score`: base 0.5; +0.2 on a target-role
substring hit in the title; +0.15 on a preferred-location substring hit;
+0.15 when remote_preference is "remote" and the job is remote; clamped
to at most 1.0. -/
def calculate_match_score (job : JobRecord) (profile : UserProfile) : Rat :=
  let score : Rat := 0.5
  match profile.preferences with
  | none => score
  | some prefs =>
    let job_title := pyLower job.title
    let score :=
      if prefs.target_roles.any (fun target_role => pyIn (pyLower target_role) job_title)
      then score + 0.2 else score
    let job_location := pyLower job.location
    let score :=
      if prefs.locations.any (fun pref_location => pyIn (pyLower pref_location) job_location)
      then score + 0.15 else score
    let score :=
      if prefs.remote_preference == some "remote" && job.remote
      then score + 0.15 else score
    min score 1.0

/-- First element of a list satisfying a predicate, if any (embedding of
`next((x for x in l if p x), None)`). -/
def pyFirst (p : α → Bool) : List α → Option α
  | [] => none
  | a :: l => if p a then some a else pyFirst p l

/-- `career_agent.get_match_reasons`: one sentence per contributing score
condition, in score order; a generic fallback when none applies. -/
def get_match_reasons (job : JobRecord) (profile : UserProfile) : List String :=
  match profile.preferences with
  | none => ["Matches your search criteria"]
  | some prefs =>
    let job_title := pyLower job.title
    let reasons : List String :=
      match pyFirst (fun target_role => pyIn (pyLower target_role) job_title) prefs.target_roles with
      | some target_role => ["Matches your target role: " ++ target_role]
      | none => []
    let job_location := job.location
    let reasons :=
      match pyFirst (fun pref_location => pyIn (pyLower pref_location) (pyLower job_location)) prefs.locations with
      | some _ => reasons ++ ["Located in " ++ job_location]
      | none => reasons
    let reasons :=
      if prefs.remote_preference == some "remote" && job.remote
      then reasons ++ ["Remote opportunity"] else reasons
    if reasons.isEmpty then ["Relevant fractional executive opportunity"] else reasons

/-- Arguments of the `search_jobs` tool. -/
structure SearchArgs where
  role : Option String := none
  location : Option String := none
  remote_only : Bool := false
  limit : Int := 5
deriving DecidableEq, Repr

/-- The `JobMatch` built for one returned row inside `search_jobs`. -/
def mkJobMatch (profile : UserProfile) (job : JobRecord) : JobMatch :=
  { job_id := toString job.id
    title := job.title
    company := job.company
    location := some job.location
    remote := job.remote
    match_score := calculate_match_score job profile
    match_reasons := get_match_reasons job profile
    missing_skills := []
    day_rate := job.salary
    url := job.url }

/-- In-place update of the last element of a list (Python `l[-1] = …`;
the empty case is unreachable in the embedded code path). -/
def updateLast (f : α → α) : List α → List α
  | [] => []
  | [x] => [f x]
  | x :: y :: l => x :: updateLast f (y :: l)

/-- State of the session after the part of `search_jobs` that runs before
the database call: search context recorded, a "searching" tool-log entry
appended. -/
def search_jobs_phase1 (s : CareerCoachState) (a : SearchArgs) : CareerCoachState :=
  { s with
    last_search_role := a.role
    last_search_location := a.location
    last_search_query :=
      some ((a.role.getD "any role") ++ " in " ++ (a.location.getD "any location"))
    tool_logs := s.tool_logs ++
      [{ tool := "search_jobs", status := "searching", params_role := a.role,
         params_location := a.location, params_remote_only := a.remote_only,
         results_count := none }] }

/-- `career_agent.search_jobs`: phase 1, then the database call (outcome
`o`), then match building, state replacement and tool-log completion.
When the store's connection attempt fails, `search_jobs_db` raises
`UnboundLocalError` out of its `finally` block and the tool body stops
after phase 1. -/
def search_jobs (s : CareerCoachState) (a : SearchArgs) (o : DbOutcome) :
    CareerCoachState × Except PyErr (List JobMatch) :=
  let s1 := search_jobs_phase1 s a
  match search_jobs_db o with
  | Except.error e => (s1, Except.error e)
  | Except.ok jobs =>
    let built := jobs.map (mkJobMatch s1.user_profile)
    let s2 := { s1 with job_matches := built, show_jobs_panel := true }
    let s3 := { s2 with
      tool_logs := updateLast
        (fun e => { e with status := "complete", results_count := some built.length })
        s2.tool_logs }
    (s3, Except.ok built)

/-- Arguments of the `update_user_profile` tool (all optional). -/
structure UpdateProfileArgs where
  name : Option String := none
  target_roles : Option (List String) := none
  locations : Option (List String) := none
  remote_preference : Option String := none
  day_rate_min : Option Int := none
  day_rate_max : Option Int := none
  availability_days : Option Int := none
deriving DecidableEq, Repr

/-- The summary dictionary `update_user_profile` returns. -/
structure ProfileSummary where
  name : Option String
  target_roles : List String
  locations : List String
  remote_preference : Option String
deriving DecidableEq, Repr

/-- `career_agent.update_user_profile`: each argument guarded by Python
truthiness (`if name: …`), lazy creation of the preferences sub-object,
then field-by-field assignment. -/
def update_user_profile (s : CareerCoachState) (a : UpdateProfileArgs) :
    CareerCoachState × ProfileSummary :=
  let profile := s.user_profile
  let profile := if pyTruthyStr a.name then { profile with name := a.name } else profile
  let prefs :=
    match profile.preferences with
    | none => ({} : JobPreferences)
    | some p => p
  let prefs :=
    if pyTruthyList a.target_roles then { prefs with target_roles := a.target_roles.getD [] }
    else prefs
  let prefs :=
    if pyTruthyList a.locations then { prefs with locations := a.locations.getD [] }
    else prefs
  let prefs :=
    if pyTruthyStr a.remote_preference then { prefs with remote_preference := a.remote_preference }
    else prefs
  let prefs :=
    if pyTruthyInt a.day_rate_min then { prefs with day_rate_min := a.day_rate_min }
    else prefs
  let prefs :=
    if pyTruthyInt a.day_rate_max then { prefs with day_rate_max := a.day_rate_max }
    else prefs
  let prefs :=
    if pyTruthyInt a.availability_days then { prefs with availability_days_per_week := a.availability_days }
    else prefs
  let profile := { profile with preferences := some prefs }
  ({ s with user_profile := profile },
   { name := profile.name, target_roles := prefs.target_roles,
     locations := prefs.locations, remote_preference := prefs.remote_preference })

/-- Arguments of the `add_skill` tool. -/
structure AddSkillArgs where
  skill_name : String
  category : String
  level : String := "intermediate"
  years_experience : Option Int := none
deriving DecidableEq, Repr

/-- Index of the first element satisfying a predicate (embedding of
`next((i for i, x in enumerate(l) if p x), None)`). -/
def firstIdxMatching (p : α → Bool) : List α → Option Nat
  | [] => none
  | a :: l => if p a then some 0 else (firstIdxMatching p l).map (· + 1)

/-- Result record of a successful `add_skill` call. -/
structure AddSkillResult where
  skill : Skill
  total_skills : Nat
deriving DecidableEq, Repr

/-- `career_agent.add_skill`: `SkillLevel(level)` is evaluated first and
raises `ValueError` on a string outside the enumeration, before any state
mutation; otherwise the built skill replaces the first entry whose
lowercased name matches, or is appended. -/
def add_skill (s : CareerCoachState) (a : AddSkillArgs) :
    CareerCoachState × Except PyErr AddSkillResult :=
  match SkillLevel.ofString a.level with
  | none => (s, Except.error PyErr.valueError)
  | some lvl =>
    let skill : Skill :=
      { name := a.skill_name, category := a.category, level := lvl,
        years_experience := a.years_experience }
    let skills := s.user_profile.skills
    let existing_idx :=
      firstIdxMatching (fun t => pyLower t.name == pyLower a.skill_name) skills
    let new_skills :=
      match existing_idx with
      | some i => skills.set i skill
      | none => skills ++ [skill]
    ({ s with user_profile := { s.user_profile with skills := new_skills } },
     Except.ok { skill := skill, total_skills := new_skills.length })

/-- Arguments of the `add_experience` tool. -/
structure AddExperienceArgs where
  company : String
  role : String
  start_year : Int
  end_year : Option Int := none
  is_executive : Bool := false
  achievements : Option (List String) := none
deriving DecidableEq, Repr

/-- `career_agent.add_experience`: append-only, no dedup. -/
def add_experience (s : CareerCoachState) (a : AddExperienceArgs) :
    CareerCoachState × WorkExperience :=
  let experience : WorkExperience :=
    { company := a.company, role := a.role, is_executive := a.is_executive,
      start_year := a.start_year, end_year := a.end_year,
      key_achievements := a.achievements.getD [] }
  ({ s with user_profile :=
      { s.user_profile with experiences := s.user_profile.experiences ++ [experience] } },
   experience)

/-- `career_agent.advance_onboarding`: `min(step, 5)` stored on both the
session and the nested profile; `step >= 5` additionally sets both
completion flags.  There is no lower clamp. -/
def advance_onboarding (s : CareerCoachState) (step : Int) :
    CareerCoachState × (Int × Bool) :=
  let s := { s with onboarding_step := min step 5 }
  let s := { s with user_profile := { s.user_profile with onboarding_step := s.onboarding_step } }
  let s :=
    if 5 ≤ step then
      { s with onboarding_complete := true,
               user_profile := { s.user_profile with onboarding_complete := true } }
    else s
  (s, (s.onboarding_step, s.onboarding_complete))

/-- `career_agent.show_visualization`: an `if/elif` chain over the three
recognized tags; anything else falls through with no state change; the
returned dictionary echoes the input tag. -/
def show_visualization (s : CareerCoachState) (visualization_type : String) :
    CareerCoachState × String :=
  let s :=
    if visualization_type == "jobs" then { s with show_jobs_panel := true }
    else if visualization_type == "profile" then { s with show_profile_panel := true }
    else if visualization_type == "skills" then { s with show_skills_graph := true }
    else s
  (s, visualization_type)

/-- A fresh session (all `CareerCoachState` defaults). -/
def s0 : CareerCoachState := {}

/-- A session in which onboarding was previously advanced to step 4. -/
def sAfter4 : CareerCoachState := (advance_onboarding s0 4).1

/-- The profile of the worked scoring example (§8 of the spec). -/
def profileC3 : UserProfile :=
  { preferences := some
      { target_roles := ["CFO"], locations := ["London"],
        remote_preference := some "remote" } }

/-- The job record of the worked scoring example (§8 of the spec). -/
def jobC3 : JobRecord :=
  { id := 1, title := "Fractional CFO", company := "Acme",
    location := "London, UK", remote := true }

/-- C1: `advance_onboarding` has no lower clamp: requesting step `-1`
stores `-1` on the session and on the nested profile, leaving the state
outside the `[0,5]` range that `models.py` declares (`Field(ge=0, le=5)`)
— pydantic does not validate plain assignment, so nothing rejects it. -/
theorem advance_onboarding_no_lower_clamp :
    (advance_onboarding s0 (-1)).1.onboarding_step = -1
    ∧ (advance_onboarding s0 (-1)).1.user_profile.onboarding_step = -1
    ∧ ¬(0 ≤ (advance_onboarding s0 (-1)).1.onboarding_step) := by decide

/-- C3: for the profile with target_roles ["CFO"], locations ["London"],
remote_preference "remote" and the job "Fractional CFO" / "London, UK" /
remote, the match score is exactly 1 (0.5+0.2+0.15+0.15 clamped to 1) and
the reasons are the role reason, the location reason and the remote
reason, in that order. -/
theorem match_score_cfo_example :
    calculate_match_score jobC3 profileC3 = 1
    ∧ calculate_match_score jobC3 profileC3 = min (0.5 + 0.2 + 0.15 + 0.15 : Rat) 1.0
    ∧ get_match_reasons jobC3 profileC3 =
        ["Matches your target role: CFO", "Located in London, UK", "Remote opportunity"] := by
  have h1 : calculate_match_score jobC3 profileC3 = min (0.5 + 0.2 + 0.15 + 0.15 : Rat) 1.0 := by
    unfold calculate_match_score jobC3 profileC3
    dsimp only
    rw [if_pos (by decide), if_pos (by decide), if_pos (by decide)]
  have h2 : min (0.5 + 0.2 + 0.15 + 0.15 : Rat) 1.0 = 1 := by norm_num
  exact ⟨h1.trans h2, h1, by decide⟩

/-- C6: `advance_onboarding` stores `min(step, 5)` on both the session and
the nested profile (so backward movement is allowed), and sets both
completion flags exactly when the requested step is ≥ 5; in particular
step 7 yields step 5 with completion, and step 2 after a prior step of 4
yields step 2. -/
theorem advance_onboarding_contract :
    (∀ (s : CareerCoachState) (step : Int),
      (advance_onboarding s step).1.onboarding_step = min step 5
      ∧ (advance_onboarding s step).1.user_profile.onboarding_step = min step 5
      ∧ (advance_onboarding s step).1.onboarding_complete =
          (if 5 ≤ step then true else s.onboarding_complete)
      ∧ (advance_onboarding s step).1.user_profile.onboarding_complete =
          (if 5 ≤ step then true else s.user_profile.onboarding_complete))
    ∧ (advance_onboarding sAfter4 2).1.onboarding_step = 2
    ∧ (advance_onboarding s0 7).1.onboarding_step = 5
    ∧ (advance_onboarding s0 7).1.onboarding_complete = true := by
  refine ⟨fun s step => ?_, by decide, by decide, by decide⟩
  unfold advance_onboarding
  dsimp only
  split <;> simp

/-- C7: on a query failure the accessor's `except` clause returns the
empty list, but on a connection failure the `finally` block references
the never-bound local `conn` and raises `UnboundLocalError`, so the
error does propagate to the caller in that case. -/
theorem search_jobs_db_failure_behavior :
    search_jobs_db DbOutcome.connFailure = Except.error PyErr.unboundLocalError
    ∧ search_jobs_db DbOutcome.connFailure ≠ Except.ok []
    ∧ search_jobs_db DbOutcome.queryFailure = Except.ok ([] : List JobRecord) :=
  ⟨rfl, fun h => Except.noConfusion h, rfl⟩

/-- Updating the last element of a list that ends in a known element. -/
theorem updateLast_append (f : α → α) : ∀ (l : List α) (e : α),
    updateLast f (l ++ [e]) = l ++ [f e]
  | [], _ => rfl
  | [_], _ => rfl
  | x :: y :: l, e => by
    have ih := updateLast_append f (y :: l) e
    simp only [List.cons_append] at ih ⊢
    rw [updateLast, ih]

/-- C2: on any row list returned by the store, `search_jobs` first appends
one "searching" tool-log entry recording the parameters, and finishes with
the session's tool log extended by exactly that one entry now in status
"complete" with `results_count` equal to the number of matches; the
`job_matches` list is replaced wholesale by the freshly built matches (so
an empty store yields an empty match list) and the jobs panel flag is set. -/
theorem search_jobs_contract (s : CareerCoachState) (a : SearchArgs) (jobs : List JobRecord) :
    (search_jobs_phase1 s a).tool_logs = s.tool_logs ++
      [{ tool := "search_jobs", status := "searching", params_role := a.role,
         params_location := a.location, params_remote_only := a.remote_only,
         results_count := none }]
    ∧ (search_jobs s a (DbOutcome.ok jobs)).1.tool_logs = s.tool_logs ++
      [{ tool := "search_jobs", status := "complete", params_role := a.role,
         params_location := a.location, params_remote_only := a.remote_only,
         results_count := some jobs.length }]
    ∧ (search_jobs s a (DbOutcome.ok jobs)).1.job_matches =
        jobs.map (mkJobMatch s.user_profile)
    ∧ (search_jobs s a (DbOutcome.ok jobs)).1.job_matches.length = jobs.length
    ∧ (search_jobs s a (DbOutcome.ok jobs)).1.show_jobs_panel = true := by
  have hlen : (search_jobs s a (DbOutcome.ok jobs)).1.job_matches.length = jobs.length := by
    have h : (search_jobs s a (DbOutcome.ok jobs)).1.job_matches =
        jobs.map (mkJobMatch s.user_profile) := rfl
    rw [h, List.length_map]
  refine ⟨rfl, ?_, rfl, hlen, rfl⟩
  show updateLast _ ((search_jobs_phase1 s a).tool_logs) = _
  rw [search_jobs_phase1]
  dsimp only
  rw [updateLast_append]
  simp [search_jobs_phase1]

/-- C8: a level string outside the closed enumeration makes `add_skill`
fail with the construction-time validation error, and the returned session
state is exactly the input state: the raise happens before any mutation. -/
theorem add_skill_invalid_level (s : CareerCoachState) (a : AddSkillArgs)
    (h : a.level ∉ (["beginner", "intermediate", "advanced", "expert"] : List String)) :
    add_skill s a = (s, Except.error PyErr.valueError) := by
  have h1 : a.level ≠ "beginner" := fun hh => h (by simp [hh])
  have h2 : a.level ≠ "intermediate" := fun hh => h (by simp [hh])
  have h3 : a.level ≠ "advanced" := fun hh => h (by simp [hh])
  have h4 : a.level ≠ "expert" := fun hh => h (by simp [hh])
  simp [add_skill, SkillLevel.ofString, h1, h2, h3, h4]

/-- C8 witness: the level "master" is rejected and the fresh session is
returned unchanged. -/
theorem add_skill_invalid_level_witness :
    add_skill s0 { skill_name := "Budgeting", category := "finance", level := "master" }
      = (s0, Except.error PyErr.valueError) :=
  add_skill_invalid_level s0
    { skill_name := "Budgeting", category := "finance", level := "master" } (by decide)

/-- C9: an unrecognized visualization tag leaves the whole session state
unchanged and the tool still returns an acknowledgement echoing the tag;
each of the three recognized tags sets exactly its own visibility flag. -/
theorem show_visualization_contract (s : CareerCoachState) (tag : String)
    (h : tag ∉ (["jobs", "profile", "skills"] : List String)) :
    show_visualization s tag = (s, tag)
    ∧ show_visualization s "jobs" = ({ s with show_jobs_panel := true }, "jobs")
    ∧ show_visualization s "profile" = ({ s with show_profile_panel := true }, "profile")
    ∧ show_visualization s "skills" = ({ s with show_skills_graph := true }, "skills") := by
  have h1 : tag ≠ "jobs" := fun hh => h (by simp [hh])
  have h2 : tag ≠ "profile" := fun hh => h (by simp [hh])
  have h3 : tag ≠ "skills" := fun hh => h (by simp [hh])
  refine ⟨?_, ?_, ?_, ?_⟩ <;> simp [show_visualization, h1, h2, h3]

/-- C9 witness: `show_visualization "unknown"` on a fresh session is a
no-op that echoes "unknown". -/
theorem show_visualization_contract_witness :
    show_visualization s0 "unknown" = (s0, "unknown") :=
  (show_visualization_contract s0 "unknown" (by decide)).1

/-- A session whose profile already holds a minimum day rate of 500. -/
def sC5 : CareerCoachState :=
  { user_profile := { preferences := some { day_rate_min := some 500 } } }

/-- C5 counterexample: `update_user_profile` guards every argument with
Python truthiness, so the provided value `day_rate_min = 0` (falsy) does
NOT overwrite the stored 500, contradicting "any provided value
overwrites the corresponding field". -/
theorem update_user_profile_zero_ignored :
    ((update_user_profile sC5 { day_rate_min := some 0 }).1.user_profile.preferences.map
        JobPreferences.day_rate_min) = some (some 500)
    ∧ ((update_user_profile sC5 { day_rate_min := some 0 }).1.user_profile.preferences.map
        JobPreferences.day_rate_min) ≠ some (some 0) := by decide

/-- C5 (amended): `update_user_profile` overwrites exactly the fields
whose arguments are provided and truthy (non-None and non-empty /
non-zero); null or falsy arguments leave the field untouched; the
preferences sub-object is created when absent; every other part of the
session state is left unchanged. -/
theorem update_user_profile_contract (s : CareerCoachState) (a : UpdateProfileArgs) :
    (update_user_profile s a).1.user_profile.name =
      (if pyTruthyStr a.name then a.name else s.user_profile.name)
    ∧ (update_user_profile s a).1.user_profile.preferences =
        (some
          { target_roles :=
              if pyTruthyList a.target_roles then a.target_roles.getD []
              else (s.user_profile.preferences.getD {}).target_roles
            locations :=
              if pyTruthyList a.locations then a.locations.getD []
              else (s.user_profile.preferences.getD {}).locations
            remote_preference :=
              if pyTruthyStr a.remote_preference then a.remote_preference
              else (s.user_profile.preferences.getD {}).remote_preference
            day_rate_min :=
              if pyTruthyInt a.day_rate_min then a.day_rate_min
              else (s.user_profile.preferences.getD {}).day_rate_min
            day_rate_max :=
              if pyTruthyInt a.day_rate_max then a.day_rate_max
              else (s.user_profile.preferences.getD {}).day_rate_max
            industries := (s.user_profile.preferences.getD {}).industries
            availability_days_per_week :=
              if pyTruthyInt a.availability_days then a.availability_days
              else (s.user_profile.preferences.getD {}).availability_days_per_week } :
          Option JobPreferences)
    ∧ (update_user_profile s a).1.user_profile.user_id = s.user_profile.user_id
    ∧ (update_user_profile s a).1.user_profile.email = s.user_profile.email
    ∧ (update_user_profile s a).1.user_profile.skills = s.user_profile.skills
    ∧ (update_user_profile s a).1.user_profile.experiences = s.user_profile.experiences
    ∧ (update_user_profile s a).1.user_profile.onboarding_step = s.user_profile.onboarding_step
    ∧ (update_user_profile s a).1.user_profile.onboarding_complete
        = s.user_profile.onboarding_complete
    ∧ (update_user_profile s a).1.job_matches = s.job_matches
    ∧ (update_user_profile s a).1.onboarding_step = s.onboarding_step
    ∧ (update_user_profile s a).1.onboarding_complete = s.onboarding_complete
    ∧ (update_user_profile s a).1.show_jobs_panel = s.show_jobs_panel
    ∧ (update_user_profile s a).1.show_profile_panel = s.show_profile_panel
    ∧ (update_user_profile s a).1.show_skills_graph = s.show_skills_graph
    ∧ (update_user_profile s a).1.tool_logs = s.tool_logs := by
  unfold update_user_profile
  cases hp : s.user_profile.preferences <;>
  cases h0 : pyTruthyStr a.name <;>
  cases h1 : pyTruthyList a.target_roles <;>
  cases h2 : pyTruthyList a.locations <;>
  cases h3 : pyTruthyStr a.remote_preference <;>
  cases h4 : pyTruthyInt a.day_rate_min <;>
  cases h5 : pyTruthyInt a.day_rate_max <;>
  cases h6 : pyTruthyInt a.availability_days <;>
  simp [hp, h0, h1, h2, h3, h4, h5, h6, Option.getD]

/-- The `Skill` value `add_skill` constructs from its arguments. -/
def builtSkill (a : AddSkillArgs) (lvl : SkillLevel) : Skill :=
  { name := a.skill_name, category := a.category, level := lvl,
    years_experience := a.years_experience }

/-- The case-insensitive identity key `add_skill` dedups on. -/
def skillKey (t : Skill) : String := pyLower t.name

/-- No value occurs twice in the list. -/
def noDupStr : List String → Bool
  | [] => true
  | x :: xs => !(xs.any (fun y => y == x)) && noDupStr xs

/-- Invariant of §3 of the spec: the skills list has at most one entry per
case-insensitive name. -/
def SkillsUnique (l : List Skill) : Prop := noDupStr (l.map skillKey) = true

/-- A successful `firstIdxMatching` points at an element satisfying the
predicate. -/
theorem firstIdxMatching_some {p : α → Bool} {l : List α} {i : Nat}
    (h : firstIdxMatching p l = some i) : ∃ t, l[i]? = some t ∧ p t = true := by
  induction l generalizing i with
  | nil => simp [firstIdxMatching] at h
  | cons a l ih =>
    rw [firstIdxMatching] at h
    by_cases hp : p a = true
    · rw [if_pos hp] at h
      cases h
      exact ⟨a, by simp, hp⟩
    · rw [if_neg hp] at h
      rcases Option.map_eq_some'.mp h with ⟨j, hj, hji⟩
      rcases ih hj with ⟨t, ht, hpt⟩
      subst hji
      exact ⟨t, by simpa using ht, hpt⟩

/-- A failed `firstIdxMatching` means no element satisfies the predicate. -/
theorem firstIdxMatching_none {p : α → Bool} {l : List α}
    (h : firstIdxMatching p l = none) : ∀ t ∈ l, p t = false := by
  induction l with
  | nil => intro t ht; cases ht
  | cons a l ih =>
    rw [firstIdxMatching] at h
    by_cases hp : p a = true
    · rw [if_pos hp] at h; cases h
    · rw [if_neg hp] at h
      intro t ht
      rcases List.mem_cons.mp ht with rfl | h1
      · simpa using hp
      · exact ih (Option.map_eq_none'.mp h) t h1

/-- Writing back the value already stored at an index is a no-op. -/
theorem set_of_getElem?_eq {l : List α} {i : Nat} {a : α}
    (h : l[i]? = some a) : l.set i a = l := by
  induction l generalizing i with
  | nil => simp at h
  | cons x l ih =>
    cases i with
    | zero =>
      simp only [List.getElem?_cons_zero, Option.some.injEq] at h
      subst h
      simp
    | succ j =>
      simp only [List.getElem?_cons_succ] at h
      simp [ih h]

/-- Appending a fresh value preserves `noDupStr`. -/
theorem noDupStr_append_single {m : List String} {k : String}
    (hk : ∀ y ∈ m, ¬(y = k)) (h : noDupStr m = true) :
    noDupStr (m ++ [k]) = true := by
  induction m with
  | nil => rfl
  | cons x m ih =>
    rw [noDupStr, Bool.and_eq_true] at h
    rcases h with ⟨hx, hm⟩
    have hxk : ¬(x = k) := hk x (List.mem_cons_self x m)
    have hrest : ∀ y ∈ m, ¬(y = k) := fun y hy => hk y (List.mem_cons_of_mem x hy)
    rw [List.cons_append, noDupStr, Bool.and_eq_true]
    refine ⟨?_, ih hrest hm⟩
    have h1 : (m.any fun y => y == x) = false := by simpa using hx
    have h2 : (k == x) = false := beq_eq_false_iff_ne.mpr (fun hh => hxk hh.symm)
    simp [List.any_append, h1, h2]

/-- C4: on a session whose skills are unique per case-insensitive name and
a valid level, `add_skill` keeps the uniqueness invariant; the built skill
replaces the first entry with the same lowercased name in place, and is
appended when no such entry exists. -/
theorem add_skill_preserves_uniqueness (s : CareerCoachState) (a : AddSkillArgs)
    (lvl : SkillLevel) (hl : SkillLevel.ofString a.level = some lvl)
    (hu : SkillsUnique s.user_profile.skills) :
    SkillsUnique (add_skill s a).1.user_profile.skills
    ∧ (add_skill s a).1.user_profile.skills =
        (match firstIdxMatching (fun t => pyLower t.name == pyLower a.skill_name)
            s.user_profile.skills with
         | some i => s.user_profile.skills.set i (builtSkill a lvl)
         | none => s.user_profile.skills ++ [builtSkill a lvl]) := by
  have hskills : (add_skill s a).1.user_profile.skills =
      (match firstIdxMatching (fun t => pyLower t.name == pyLower a.skill_name)
          s.user_profile.skills with
       | some i => s.user_profile.skills.set i (builtSkill a lvl)
         | none => s.user_profile.skills ++ [builtSkill a lvl]) := by
    unfold add_skill builtSkill
    rw [hl]
  refine ⟨?_, hskills⟩
  rw [hskills]
  cases hidx : firstIdxMatching (fun t => pyLower t.name == pyLower a.skill_name)
      s.user_profile.skills with
  | some i =>
    rcases firstIdxMatching_some hidx with ⟨t, ht, hpt⟩
    have hkey : pyLower t.name = pyLower a.skill_name := eq_of_beq (by simpa using hpt)
    unfold SkillsUnique
    rw [List.map_set]
    have hnewkey : skillKey (builtSkill a lvl) = skillKey t := by
      unfold skillKey builtSkill
      rw [hkey]
    rw [hnewkey]
    have hget : (s.user_profile.skills.map skillKey)[i]? = some (skillKey t) := by
      rw [List.getElem?_map, ht]
      rfl
    rw [set_of_getElem?_eq hget]
    exact hu
  | none =>
    unfold SkillsUnique
    rw [List.map_append]
    apply noDupStr_append_single _ hu
    intro y hy
    rcases List.mem_map.mp hy with ⟨u, hu2, rfl⟩
    have hpu : (pyLower u.name == pyLower a.skill_name) = false := by
      simpa using firstIdxMatching_none hidx u hu2
    intro hcontra
    exact beq_eq_false_iff_ne.mp hpu (by simpa [skillKey] using hcontra)

/-- First `add_skill` call of the dedup example ("Budgeting"). -/
def aBudget : AddSkillArgs :=
  { skill_name := "Budgeting", category := "finance", level := "expert" }

/-- Second `add_skill` call of the dedup example ("budgeting"). -/
def aBudgetLower : AddSkillArgs :=
  { skill_name := "budgeting", category := "finance", level := "beginner" }

/-- Session after adding the skill "Budgeting" to a fresh session. -/
def sBudget : CareerCoachState := (add_skill s0 aBudget).1

/-- C4 witness: adding "Budgeting" then "budgeting" leaves exactly one
skill entry, carrying the second call's attributes. -/
theorem add_skill_preserves_uniqueness_witness :
    SkillsUnique (add_skill sBudget aBudgetLower).1.user_profile.skills
    ∧ (add_skill sBudget aBudgetLower).1.user_profile.skills.length = 1
    ∧ (add_skill sBudget aBudgetLower).1.user_profile.skills =
        [builtSkill aBudgetLower SkillLevel.beginner] :=
  ⟨(add_skill_preserves_uniqueness sBudget aBudgetLower SkillLevel.beginner
      (by decide) (by unfold SkillsUnique; decide)).1, by decide, by decide⟩

/-- The closed set of tool invocations an orchestrator can issue against a
session (§4.3–4.6); a search call carries the outcome of its store call. -/
inductive ToolCall where
  | searchJobs : SearchArgs → DbOutcome → ToolCall
  | updateProfile : UpdateProfileArgs → ToolCall
  | addSkill : AddSkillArgs → ToolCall
  | addExperience : AddExperienceArgs → ToolCall
  | advanceOnboarding : Int → ToolCall
  | showVisualization : String → ToolCall

/-- Session-state transition of one tool call (returned values dropped;
for fallible tools the state carries the mutations made before a raise). -/
def applyTool (s : CareerCoachState) : ToolCall → CareerCoachState
  | ToolCall.searchJobs a o => (search_jobs s a o).1
  | ToolCall.updateProfile a => (update_user_profile s a).1
  | ToolCall.addSkill a => (add_skill s a).1
  | ToolCall.addExperience a => (add_experience s a).1
  | ToolCall.advanceOnboarding step => (advance_onboarding s step).1
  | ToolCall.showVisualization t => (show_visualization s t).1

/-- A session run: a sequence of tool calls from an initial state. -/
def runTools (s : CareerCoachState) (calls : List ToolCall) : CareerCoachState :=
  calls.foldl applyTool s

/-- One tool call never lowers a visibility flag. -/
theorem applyTool_flags_mono (s : CareerCoachState) (c : ToolCall) :
    (s.show_jobs_panel = true → (applyTool s c).show_jobs_panel = true)
    ∧ (s.show_profile_panel = true → (applyTool s c).show_profile_panel = true)
    ∧ (s.show_skills_graph = true → (applyTool s c).show_skills_graph = true) := by
  cases c with
  | searchJobs a o =>
    cases o with
    | connFailure => exact ⟨fun h => h, fun h => h, fun h => h⟩
    | queryFailure => exact ⟨fun _ => rfl, fun h => h, fun h => h⟩
    | ok rows => exact ⟨fun _ => rfl, fun h => h, fun h => h⟩
  | updateProfile a => exact ⟨fun h => h, fun h => h, fun h => h⟩
  | addSkill a =>
    have hj : (applyTool s (ToolCall.addSkill a)).show_jobs_panel = s.show_jobs_panel := by
      show ((add_skill s a).1).show_jobs_panel = s.show_jobs_panel
      unfold add_skill
      cases SkillLevel.ofString a.level <;> rfl
    have hp : (applyTool s (ToolCall.addSkill a)).show_profile_panel = s.show_profile_panel := by
      show ((add_skill s a).1).show_profile_panel = s.show_profile_panel
      unfold add_skill
      cases SkillLevel.ofString a.level <;> rfl
    have hg : (applyTool s (ToolCall.addSkill a)).show_skills_graph = s.show_skills_graph := by
      show ((add_skill s a).1).show_skills_graph = s.show_skills_graph
      unfold add_skill
      cases SkillLevel.ofString a.level <;> rfl
    exact ⟨fun h => hj.trans h, fun h => hp.trans h, fun h => hg.trans h⟩
  | addExperience a => exact ⟨fun h => h, fun h => h, fun h => h⟩
  | advanceOnboarding step =>
    have hj : (applyTool s (ToolCall.advanceOnboarding step)).show_jobs_panel
        = s.show_jobs_panel := by
      show ((advance_onboarding s step).1).show_jobs_panel = s.show_jobs_panel
      unfold advance_onboarding
      dsimp only
      split <;> rfl
    have hp : (applyTool s (ToolCall.advanceOnboarding step)).show_profile_panel
        = s.show_profile_panel := by
      show ((advance_onboarding s step).1).show_profile_panel = s.show_profile_panel
      unfold advance_onboarding
      dsimp only
      split <;> rfl
    have hg : (applyTool s (ToolCall.advanceOnboarding step)).show_skills_graph
        = s.show_skills_graph := by
      show ((advance_onboarding s step).1).show_skills_graph = s.show_skills_graph
      unfold advance_onboarding
      dsimp only
      split <;> rfl
    exact ⟨fun h => hj.trans h, fun h => hp.trans h, fun h => hg.trans h⟩
  | showVisualization t =>
    have hj : s.show_jobs_panel = true →
        ((show_visualization s t).1).show_jobs_panel = true := by
      intro h
      unfold show_visualization
      dsimp only
      repeat' split
      all_goals first | rfl | exact h
    have hp : s.show_profile_panel = true →
        ((show_visualization s t).1).show_profile_panel = true := by
      intro h
      unfold show_visualization
      dsimp only
      repeat' split
      all_goals first | rfl | exact h
    have hg : s.show_skills_graph = true →
        ((show_visualization s t).1).show_skills_graph = true := by
      intro h
      unfold show_visualization
      dsimp only
      repeat' split
      all_goals first | rfl | exact h
    exact ⟨hj, hp, hg⟩

/-- C10: under every sequence of tool calls, a visibility flag that is
true stays true: no tool ever resets `show_jobs_panel`,
`show_profile_panel` or `show_skills_graph` to false. -/
theorem visibility_flags_monotone (s : CareerCoachState) (calls : List ToolCall) :
    (s.show_jobs_panel = true → (runTools s calls).show_jobs_panel = true)
    ∧ (s.show_profile_panel = true → (runTools s calls).show_profile_panel = true)
    ∧ (s.show_skills_graph = true → (runTools s calls).show_skills_graph = true) := by
  induction calls generalizing s with
  | nil => exact ⟨fun h => h, fun h => h, fun h => h⟩
  | cons c calls ih =>
    have hstep := applyTool_flags_mono s c
    have hrest := ih (applyTool s c)
    exact ⟨fun h => hrest.1 (hstep.1 h),
           fun h => hrest.2.1 (hstep.2.1 h),
           fun h => hrest.2.2 (hstep.2.2 h)⟩

/-- A session with all three panels visible. -/
def sAllPanels : CareerCoachState :=
  { show_jobs_panel := true, show_profile_panel := true, show_skills_graph := true }

/-- C10 witness: after an onboarding move and an unrecognized
visualization request, the jobs panel is still visible. -/
theorem visibility_flags_monotone_witness :
    (runTools sAllPanels
      [ToolCall.advanceOnboarding 3, ToolCall.showVisualization "unknown"]).show_jobs_panel
      = true :=
  (visibility_flags_monotone sAllPanels
    [ToolCall.advanceOnboarding 3, ToolCall.showVisualization "unknown"]).1 rfl
